import Mathlib

/-!
Verification of the Homelink resilient client/router layer.

This file embeds the core components of the repository in Lean 4:

* `health_check` — `LMStudioClient.health_check` (src/backend/lm_studio_client.py,
  lines 43–88): cached backend liveness probe.
* `chat_payload` / `vision_payload` — the request bodies built by
  `chat_completion` (lines 152–163) and `vision_completion` (lines 229–246).
* `chat_completion` / `vision_completion` — the completion executors
  (lines 123–202 and 204–263), modelled as functions of the environment:
  the backend behaviour is a function from the attempt index to the
  outcome of that network attempt.
* `handle_vision_intent` — src/backend/vision_router_fixed.py, lines 103–208.
* `save_context` — src/backend/lana_server_fixed.py, lines 109–119.
* `chat_completions` — the main route, src/backend/lana_server_fixed.py,
  lines 155–279.
* a two-thread interleaving model of `_capture_frame`
  (src/backend/vision_router_fixed.py, lines 25–52).

Clock readings and sleep durations are machine floats in the source; they
are modelled as integers (a discrete clock) because the code only subtracts
and compares them against the constant freshness window — no arithmetic whose
granularity or rounding could matter occurs. The sampling temperature, a
float constant that is passed through untouched, is modelled as a rational.
-/

/-- Outcome of one network exchange with the backend, as seen by the Python
`requests` calls: a refused connection (`requests.exceptions.ConnectionError`),
a timeout (`requests.exceptions.Timeout`), a completed HTTP response, or any
other exception raised inside the `try` block. For a completed `response`,
`status` is `response.status_code` and `content` is
`body["choices"][0]["message"]["content"]` when that path exists in the JSON
body, and `none` when the body is malformed (missing keys, empty `choices`,
or unparsable JSON — in the source all of those raise and are caught the same
way the `KeyError` branch is, returning `None`). -/
inductive HTTPResult
  | connError
  | timeout
  | response (status : Nat) (content : Option String)
  | otherFail
deriving DecidableEq, Repr

/-- Mutable health-cache state of `LMStudioClient`:
`_last_health_check : Option timestamp` (initially `None`) and
`_is_healthy : bool` (lm_studio_client.py, lines 27–28). -/
structure HealthState where
  lastCheck : Option ℤ
  isHealthy : Bool
deriving DecidableEq, Repr

/-- Result of one `health_check` call: the returned boolean, the client state
after the call, and whether a GET against the models endpoint was issued. -/
structure HealthCheckOut where
  result : Bool
  state : HealthState
  networkCall : Bool
deriving DecidableEq, Repr

/-- The cached-result guard of `health_check` (lines 51–53):
`if not force and self._last_health_check:` tests the Python truthiness of the
stored float (so a stored `0.0` would not count as set), and then
`if now - self._last_health_check < 30:` returns the cached value. -/
def cachedFresh (st : HealthState) (now : ℤ) : Bool :=
  match st.lastCheck with
  | some t => decide (t ≠ 0) && decide (now - t < 30)
  | none => false

/-- Model of `LMStudioClient.health_check` (lm_studio_client.py, lines 43–88).
`net` is the outcome of the GET against the models endpoint, consulted only
when the cache is not used. A 200 status sets `_is_healthy = True`; any other
status, connection error, timeout, or other exception sets it `False`; every
non-cached path stores `_last_health_check = now`. -/
def health_check (st : HealthState) (force : Bool) (now : ℤ) (net : HTTPResult) :
    HealthCheckOut :=
  if !force && cachedFresh st now then
    { result := st.isHealthy, state := st, networkCall := false }
  else
    match net with
    | .response code _ =>
        let healthy := code == 200
        { result := healthy
          state := { lastCheck := some now, isHealthy := healthy }
          networkCall := true }
    | _ =>
        { result := false
          state := { lastCheck := some now, isHealthy := false }
          networkCall := true }

/-- Content of one message in a chat-completions payload: either a plain
string or the multimodal list `[{type: text, text}, {type: image_url,
image_url: {url}}]` used by `vision_completion`. -/
inductive MessageContent
  | text (s : String)
  | multimodal (text : String) (imageUrl : String)
deriving DecidableEq, Repr

/-- One `{role, content}` entry of a payload `messages` list. -/
structure ChatMessage where
  role : String
  content : MessageContent
deriving DecidableEq, Repr

/-- A chat-completions request body. `max_tokens` and `stream` are `Option`s
so that a payload that omits the JSON field is distinguishable from one that
sets it. -/
structure Payload where
  model : String
  messages : List ChatMessage
  temperature : ℚ
  max_tokens : Option Nat
  stream : Option Bool
deriving DecidableEq, Repr

/-- The payload built by `chat_completion` (lm_studio_client.py, lines
152–163): an optional system message is prepended when `system_prompt` is
truthy (`if system_prompt:` — a supplied empty string is skipped), followed by
the user message; `max_tokens` is set and `stream` is `False`. -/
def chat_payload (model prompt : String) (systemPrompt : Option String)
    (temperature : ℚ) (maxTokens : Nat) : Payload :=
  let messages :=
    match systemPrompt with
    | some s =>
        if s ≠ "" then
          [⟨"system", .text s⟩, ⟨"user", .text prompt⟩]
        else
          [⟨"user", .text prompt⟩]
    | none => [⟨"user", .text prompt⟩]
  { model := model
    messages := messages
    temperature := temperature
    max_tokens := some maxTokens
    stream := some false }

/-- The payload built by `vision_completion` (lm_studio_client.py, lines
229–246): a single user message whose content is a text part plus an
`image_url` part holding `data:image/jpeg;base64,<image>`; the source sets
`model`, `messages` and `temperature` and no other field. -/
def vision_payload (model imageBase64 prompt : String) (temperature : ℚ) :
    Payload :=
  { model := model
    messages :=
      [⟨"user", .multimodal prompt ("data:image/jpeg;base64," ++ imageBase64)⟩]
    temperature := temperature
    max_tokens := none
    stream := none }

/-- Observable trace of one completion call against the chat endpoint:
how many POSTs were issued, the list of `time.sleep` durations performed
between attempts (each one is `retry_delay`), and the returned value
(`none` models Python `None`). -/
structure CallTrace where
  attempts : Nat
  waits : List ℤ
  result : Option String
deriving DecidableEq, Repr

/-- One unrolling of the retry loop of `chat_completion`
(lm_studio_client.py, lines 166–202): `left` iterations of
`for attempt in range(self.max_retries)` remain and the current index is
`attempt`. `requests.post(...).raise_for_status()` raises
`HTTPError` exactly for status codes in `[400, 600)`. Connection errors and
timeouts retry, sleeping `delay` (`retry_delay`) when another attempt remains
(`if attempt < self.max_retries - 1`); `HTTPError`, a malformed body
(`KeyError` or any other extraction failure), and any other exception return
`None` at once; falling off the loop returns `None`. -/
def chatLoopFrom (backend : Nat → HTTPResult) (maxRetries : Nat) (delay : ℤ) :
    Nat → Nat → CallTrace
  | 0, _ => { attempts := 0, waits := [], result := none }
  | left + 1, attempt =>
      match backend attempt with
      | .connError | .timeout =>
          let rest := chatLoopFrom backend maxRetries delay left (attempt + 1)
          if attempt < maxRetries - 1 then
            { attempts := rest.attempts + 1, waits := delay :: rest.waits
              result := rest.result }
          else
            { attempts := rest.attempts + 1, waits := rest.waits
              result := rest.result }
      | .response code content =>
          if 400 ≤ code ∧ code < 600 then
            { attempts := 1, waits := [], result := none }
          else
            match content with
            | some c => { attempts := 1, waits := [], result := some c }
            | none => { attempts := 1, waits := [], result := none }
      | .otherFail => { attempts := 1, waits := [], result := none }

/-- The whole loop `for attempt in range(self.max_retries)`, entered with
`maxRetries` iterations left and `attempt = 0`. -/
def chatRetryLoop (backend : Nat → HTTPResult) (maxRetries : Nat)
    (delay : ℤ) : CallTrace :=
  chatLoopFrom backend maxRetries delay maxRetries 0

/-- Model of `LMStudioClient.chat_completion` (lm_studio_client.py, lines 123–202) as a
function of the environment: `st`, `now` and `healthNet` feed the initial
`self.health_check()` call (its default is `force=False`); when that check
returns `False` the method returns `None` without touching the chat endpoint,
otherwise it runs the retry loop. `backend attempt` is the outcome of the
POST issued on that attempt. (The payload the POSTs carry is `chat_payload`,
built once before the loop.) -/
def chat_completion (st : HealthState) (now : ℤ) (healthNet : HTTPResult)
    (backend : Nat → HTTPResult) (maxRetries : Nat) (delay : ℤ) : CallTrace :=
  if (health_check st false now healthNet).result then
    chatRetryLoop backend maxRetries delay
  else
    { attempts := 0, waits := [], result := none }

/-- Model of `LMStudioClient.vision_completion` (lm_studio_client.py, lines 204–263):
the same initial `self.health_check()` gate, then a single POST inside one
`try` whose `except Exception` returns `None` — there is no retry loop, so at
most one network attempt is made whatever the outcome. -/
def vision_completion (st : HealthState) (now : ℤ) (healthNet : HTTPResult)
    (backend : Nat → HTTPResult) : CallTrace :=
  if (health_check st false now healthNet).result then
    match backend 0 with
    | .response code content =>
        if 400 ≤ code ∧ code < 600 then
          { attempts := 1, waits := [], result := none }
        else
          match content with
          | some c => { attempts := 1, waits := [], result := some c }
          | none => { attempts := 1, waits := [], result := none }
    | _ => { attempts := 1, waits := [], result := none }
  else
    { attempts := 0, waits := [], result := none }

/-- The process-wide vision-activity record (spec §3 `VisionState`): the
current intent (if any), whether a capture/analysis is in flight, and the
latest result or error text. (The spec also carries an `updated_at`
timestamp; no claim refers to it and it is omitted.) -/
structure VisionState where
  intent : Option String
  active : Bool
  result : Option String
deriving DecidableEq, Repr

/-- Modelled from the spec: `update_vision_state` lives in the `vision_state`
module, which is not under src/ (only its callers in
vision_router_fixed.py are). Per spec §3, an update publishes a new
process-wide record in which the supplied fields replace the old values and
the fields not supplied are kept. A `some` argument is a supplied keyword
argument; `none` means the keyword was not passed. -/
def update_vision_state (st : VisionState) (intent? : Option String)
    (active? : Option Bool) (result? : Option String) : VisionState :=
  { intent := match intent? with
      | some i => some i
      | none => st.intent
    active := match active? with
      | some a => a
      | none => st.active
    result := match result? with
      | some r => some r
      | none => st.result }

/-- The dictionary returned by `handle_vision_intent`: either the success
record `{intent, result, success: True}` or an error record
`{error, message}`. -/
inductive VisionResponse
  | success (intent result : String)
  | failed (code message : String)
deriving DecidableEq, Repr

/-- A run of `handle_vision_intent`: the returned dictionary, the
`VisionState` published at entry, and the `VisionState` published at return.
(Every path of the source publishes exactly two states: one `active=True`
update at entry and one `active=False` update just before returning.) -/
structure VisionRun where
  resp : VisionResponse
  first : VisionState
  final : VisionState
deriving DecidableEq, Repr

/-- Python truthiness of an optional string: `None` and `""` are falsy. -/
def truthyStr : Option String → Bool
  | some s => s ≠ ""
  | none => false

/-- Model of `handle_vision_intent` (vision_router_fixed.py, lines 103–208) as a
function of the environment. `camera` is the value of `_capture_frame()`
(`none` models `None`); the source then tests `if not image_b64:`, so an
empty capture string is also treated as a failure. `healthOk` is the value
of `lm_client.health_check()`. `visionOut` is what the
`lm_client.vision_completion(...)` call does: `Sum.inl r` means it returned
`r`, `Sum.inr e` means an exception with text `e` escaped it (the defensive
`except` branch of lines 199–208; the returned text is tested with
`if result_text:`, so a returned `None` or `""` both take the
`no_response` branch). The image-saving block (lines 139–152) swallows its
own exceptions and touches no modelled state, so it does not appear. -/
def handle_vision_intent (st0 : VisionState) (intent prompt : String)
    (camera : Option String) (healthOk : Bool)
    (visionOut : Sum (Option String) String) : VisionRun :=
  let st1 := update_vision_state st0 (some intent) (some true) none
  if truthyStr camera then
    if healthOk then
      match visionOut with
      | .inl r =>
          if truthyStr r then
            let t := r.getD ""
            { resp := .success intent t
              first := st1
              final := update_vision_state st1 none (some false) (some t) }
          else
            { resp := .failed "no_response" "Vision model returned no response"
              first := st1
              final := update_vision_state st1 none (some false)
                (some "Vision model returned no response") }
      | .inr e =>
          { resp := .failed "vision_failed" e
            first := st1
            final := update_vision_state st1 none (some false) (some e) }
    else
      { resp := .failed "lm_studio_disconnected" "LM Studio not connected"
        first := st1
        final := update_vision_state st1 none (some false)
          (some "LM Studio not connected") }
  else
    { resp := .failed "camera_failed" "Unable to access camera"
      first := st1
      final := update_vision_state st1 none (some false)
        (some "Camera capture failed") }

/-- One conversation entry appended to `recent_memory` by the route
(lana_server_fixed.py, lines 239–244). -/
structure ConversationEntry where
  user : String
  prompt : String
  response : String
  intent : Option String
deriving DecidableEq, Repr

/-- Model of `save_context` (lana_server_fixed.py, lines 109–119) acting on the
`recent_memory` list: append the entry, then keep only the last 100
(`data["recent_memory"][-100:]`, i.e. drop all but the last 100) when the
list has grown beyond 100. -/
def save_context (hist : List ConversationEntry) (entry : ConversationEntry) :
    List ConversationEntry :=
  let grown := hist ++ [entry]
  if grown.length > 100 then
    grown.drop (grown.length - 100)
  else
    grown

/-- Python `a or b` on two optional strings: yields `a` when `a` is truthy
(not `None`, not `""`), else `b`. -/
def pyOrStr (a b : Option String) : Option String :=
  if truthyStr a then a else b

/-- The request body as the route reads it: the optional `prompt`, `input`
and `linked_user` string fields, and the `messages` array where each element
stands for the optional `content` field of one message dictionary
(`messages[-1].get("content", "")` defaults a missing field to `""`).
A missing `messages` key is the empty list (`body.get("messages", [])`). -/
structure RequestBody where
  prompt? : Option String
  input? : Option String
  messages : List (Option String)
  linkedUser? : Option String
deriving DecidableEq, Repr

/-- The prompt-extraction logic of the route (lana_server_fixed.py, lines
166–175): `prompt = body.get("prompt") or body.get("input")`; if that is
falsy and `messages` is non-empty, `prompt = messages[-1].get("content",
"")`; if the result is still falsy the route answers 400. The function
returns the extracted prompt, or `none` when the 400 branch is taken —
so a `some` result is always a non-empty string. -/
def extractPrompt (b : RequestBody) : Option String :=
  let p := pyOrStr b.prompt? b.input?
  let p2 :=
    if truthyStr p then p
    else
      match b.messages.getLast? with
      | some m => some (m.getD "")
      | none => p
  if truthyStr p2 then p2 else none

/-- The fixed apology text of the route (lana_server_fixed.py, lines
212–215), returned when no intent matched and the health check failed. -/
def apologyText : String :=
  "I can" ++ String.singleton (Char.ofNat 39) ++
    "t connect to my language model right now. " ++
    "Please make sure LM Studio is running and the server is started."

/-- The fallback text of the route (line 231) when `chat_completion`
returned `None`. -/
def noLLMText : String :=
  "I" ++ String.singleton (Char.ofNat 39) ++
    "m having trouble generating a response right now."

/-- The membership test `intent in VISION_INTENTS`
(vision_router_fixed.py, lines 15–22). -/
def visionIntent (s : String) : Bool :=
  s ∈ ["see", "see_me", "check_wellbeing", "identify_objects", "read_text",
    "save_view"]

/-- Observable outcome of one call to the `/v1/chat/completions` route:
HTTP status, the response text placed in `choices[0].message.content`
(`none` for the 400 error answer), the 400 error body text, whether
`match_intent` ran, whether `lm_client.chat_completion` was invoked (the
only way this request touches the chat endpoint), whether the vision
handler or the local-command executor ran, and the conversation entries
appended to the history sink. -/
structure RouteResult where
  status : Nat
  responseText : Option String
  errorText : Option String
  matchCalled : Bool
  chatCalled : Bool
  visionCalled : Bool
  execCalled : Bool
  saved : List ConversationEntry
deriving DecidableEq, Repr

/-- The `chat_completions` route (lana_server_fixed.py, lines 155–279) as a
function of the environment. `match_intent` (module `intent_engine`) and
`execute_command` (module `actions`) are not under src/; per spec §4.4 the
former is a deterministic classifier `text → Option intent` and the latter a
total function producing the response string, so the route is parametrised
by `matchIntent` and by `execOut` (the string `execute_command` would
return). `manifestUser` is `lana_manifest.get("linked_user", "unknown")`;
`healthOk` is the value of `lm_client.health_check()` consulted on the
no-intent path; `llmOut` is what `lm_client.chat_completion` would return if
invoked; `visionResp` is the dictionary `handle_vision_intent` would return
if invoked. -/
def chat_completions (b : RequestBody) (manifestUser : String)
    (matchIntent : String → Option String) (healthOk : Bool)
    (llmOut : Option String) (visionResp : VisionResponse) (execOut : String) :
    RouteResult :=
  match extractPrompt b with
  | none =>
      { status := 400
        responseText := none
        errorText := some "No input provided"
        matchCalled := false
        chatCalled := false
        visionCalled := false
        execCalled := false
        saved := [] }
  | some prompt =>
      let linkedUser := b.linkedUser?.getD manifestUser
      let intent := matchIntent prompt
      let answered : String × Bool × Bool × Bool :=
        match intent with
        | some it =>
            if visionIntent it then
              match visionResp with
              | .failed code _ => ("Vision error: " ++ code, false, true, false)
              | .success _ r => (r, false, true, false)
            else
              (execOut, false, false, true)
        | none =>
            if healthOk then
              match llmOut with
              | some t => (t, true, false, false)
              | none => (noLLMText, true, false, false)
            else
              (apologyText, false, false, false)
      { status := 200
        responseText := some answered.1
        errorText := none
        matchCalled := true
        chatCalled := answered.2.1
        visionCalled := answered.2.2.1
        execCalled := answered.2.2.2
        saved := [⟨linkedUser, prompt, answered.1, intent⟩] }

/-- One atomic camera operation of `_capture_frame`
(vision_router_fixed.py, lines 32–37): `cv2.VideoCapture(0)`,
`time.sleep(0.2)`, `cap.read()`, `cap.release()`. -/
inductive CamOp
  | openCam
  | warmUp
  | readFrame
  | releaseCam
deriving DecidableEq, Repr

/-- The operation sequence `_capture_frame` performs on the camera device.
The source wraps it in a `try` but contains no mutex, semaphore, or any
other synchronisation around the span. -/
def captureOps : List CamOp := [.openCam, .warmUp, .readFrame, .releaseCam]

/-- Joint state of two threads each running `_capture_frame`: the remaining
operations of each thread and whether each currently holds the camera device
(has opened it and not yet released it). -/
structure TwoCaptures where
  rem1 : List CamOp
  rem2 : List CamOp
  hold1 : Bool
  hold2 : Bool
deriving DecidableEq, Repr

/-- One thread executes its next operation: opening takes hold of the
device, releasing lets go, warm-up and read leave possession unchanged.
Because `_capture_frame` has no lock, no operation ever blocks on the other
thread. -/
def camStep : List CamOp × Bool → List CamOp × Bool
  | ([], h) => ([], h)
  | (op :: rest, h) =>
      (rest,
        match op with
        | .openCam => true
        | .releaseCam => false
        | _ => h)

/-- Advance the joint state by letting the scheduled thread (`false` for the
first caller, `true` for the second) run its next operation. -/
def schedStep (s : TwoCaptures) (t : Bool) : TwoCaptures :=
  if t then
    let n := camStep (s.rem2, s.hold2)
    { s with rem2 := n.1, hold2 := n.2 }
  else
    let n := camStep (s.rem1, s.hold1)
    { s with rem1 := n.1, hold1 := n.2 }

/-- Initial joint state: both callers about to run `_capture_frame`,
neither holding the device. -/
def initCaptures : TwoCaptures :=
  { rem1 := captureOps, rem2 := captureOps, hold1 := false, hold2 := false }

/-- Does some state reached along the given schedule have both threads
holding the camera device at once? -/
def bothHoldAlong (s : TwoCaptures) : List Bool → Bool
  | [] => false
  | t :: ts =>
      let s2 := schedStep s t
      (s2.hold1 && s2.hold2) || bothHoldAlong s2 ts

/-- Whether the interleaving described by `sched` makes the two concurrent
`_capture_frame` calls hold the camera simultaneously at some point. -/
def overlapPossible (sched : List Bool) : Bool :=
  bothHoldAlong initCaptures sched

/-- Against a backend that refuses every connection, the retry loop entered
with `left` iterations remaining (and invoked from the top of the loop, so
`attempt + left = maxRetries`) makes `left` attempts, sleeps `retry_delay`
between consecutive attempts (so `left - 1` times), and returns `None`. -/
theorem chatLoopFrom_connError (maxRetries : Nat) (delay : ℤ) :
    ∀ left attempt, attempt + left = maxRetries →
      chatLoopFrom (fun _ => HTTPResult.connError) maxRetries delay left attempt =
        { attempts := left, waits := List.replicate (left - 1) delay
          result := none } := by
  intro left
  induction left with
  | zero => intro attempt _; rfl
  | succ n ih =>
      intro attempt h
      rw [chatLoopFrom]
      rw [ih (attempt + 1) (by omega)]
      by_cases hc : attempt < maxRetries - 1
      · have hn : 1 ≤ n := by omega
        simp only [hc, if_true]
        have hrep : n + 1 - 1 = (n - 1) + 1 := by omega
        rw [hrep, List.replicate_succ]
      · have hn : n = 0 := by omega
        subst hn
        simp [hc]

/-- C1 (amended): with a healthy health check and a backend that refuses
every connection, `chat_completion` performs exactly `max_attempts` network
attempts with a `retry_delay` sleep between consecutive attempts
(`max_attempts - 1` sleeps) and returns `None`; `vision_completion`, which
has no retry loop, performs exactly one attempt and returns `None`. -/
theorem C1_retry_bound (st : HealthState) (now : ℤ) (hnet : HTTPResult)
    (maxRetries : Nat) (delay : ℤ)
    (h : (health_check st false now hnet).result = true) :
    chat_completion st now hnet (fun _ => HTTPResult.connError) maxRetries delay =
      { attempts := maxRetries, waits := List.replicate (maxRetries - 1) delay
        result := none } ∧
    vision_completion st now hnet (fun _ => HTTPResult.connError) =
      { attempts := 1, waits := [], result := none } := by
  constructor
  · simp only [chat_completion, h, if_true, chatRetryLoop]
    exact chatLoopFrom_connError maxRetries delay maxRetries 0 (by omega)
  · simp [vision_completion, h]

/-- Witness for `C1_retry_bound`: a cached-healthy client
(`_last_health_check = 1`, `now = 2`), `max_attempts = 3`,
`retry_delay = 1`. -/
theorem C1_retry_bound_witness :
    chat_completion ⟨some 1, true⟩ 2 HTTPResult.connError
        (fun _ => HTTPResult.connError) 3 1 =
      { attempts := 3, waits := List.replicate 2 1, result := none } ∧
    vision_completion ⟨some 1, true⟩ 2 HTTPResult.connError
        (fun _ => HTTPResult.connError) =
      { attempts := 1, waits := [], result := none } :=
  C1_retry_bound ⟨some 1, true⟩ 2 HTTPResult.connError 3 1 (by decide)

/-- C1 as stated is false for the vision kind: with `max_attempts = 3` and a
backend refusing every connection, `vision_completion` (whose body has a
single `try` with no retry loop) performs one attempt, not three. -/
theorem C1_vision_no_retry_counterexample :
    vision_completion ⟨some 1, true⟩ 2 HTTPResult.connError
        (fun _ => HTTPResult.connError) =
      { attempts := 1, waits := [], result := none } ∧ (1 : Nat) ≠ 3 := by
  constructor <;> decide

/-- C3 (amended): when the first attempt yields an HTTP response whose
status is in `[400, 600)` (the statuses `raise_for_status` raises on) or
whose body lacks `choices[0].message.content`, `chat_completion` performs
exactly one network attempt — no retry even though budget remains — and
returns `None`. -/
theorem C3_no_retry_terminal (st : HealthState) (now : ℤ) (hnet : HTTPResult)
    (backend : Nat → HTTPResult) (maxRetries : Nat) (delay : ℤ) (code : Nat)
    (content : Option String)
    (hh : (health_check st false now hnet).result = true)
    (hm : 1 ≤ maxRetries)
    (hb : backend 0 = HTTPResult.response code content)
    (hterm : (400 ≤ code ∧ code < 600) ∨ content = none) :
    chat_completion st now hnet backend maxRetries delay =
      { attempts := 1, waits := [], result := none } := by
  obtain ⟨m, rfl⟩ : ∃ m, maxRetries = m + 1 := ⟨maxRetries - 1, by omega⟩
  simp only [chat_completion, hh, if_true, chatRetryLoop, chatLoopFrom, hb]
  rcases hterm with ⟨h1, h2⟩ | rfl
  · simp [h1, h2]
  · by_cases hc : 400 ≤ code ∧ code < 600
    · simp [hc]
    · simp [hc]

/-- Witness for `C3_no_retry_terminal`: HTTP 404 on the first attempt with
retry budget 3. -/
theorem C3_no_retry_terminal_witness :
    chat_completion ⟨some 1, true⟩ 2 HTTPResult.connError
        (fun _ => HTTPResult.response 404 none) 3 1 =
      { attempts := 1, waits := [], result := none } :=
  C3_no_retry_terminal ⟨some 1, true⟩ 2 HTTPResult.connError
    (fun _ => HTTPResult.response 404 none) 3 1 404 none (by decide) (by decide)
    rfl (Or.inl (by decide))

/-- C3 as stated is false: a non-2xx status outside `[400, 600)` does not
raise in `raise_for_status`, so a 304 response carrying a well-formed body
makes `chat_completion` return the content of that body, not `None` (the single
attempt is still the only one). -/
theorem C3_non2xx_counterexample :
    chat_completion ⟨some 1, true⟩ 2 HTTPResult.connError
        (fun _ => HTTPResult.response 304 (some "ok")) 3 1 =
      { attempts := 1, waits := [], result := some "ok" } := by
  decide

/-- C4: with `force=False`, a set (non-zero, as every real clock reading is)
`_last_health_check` younger than 30 seconds makes `health_check` return the
cached `_is_healthy`, issue no network call, and leave the state untouched;
with `force=True` the GET against the models endpoint is always issued. -/
theorem C4_health_cache (st : HealthState) (t now : ℤ) (net forcedNet : HTTPResult)
    (hset : st.lastCheck = some t) (ht : t ≠ 0) (hfresh : now - t < 30) :
    health_check st false now net =
      { result := st.isHealthy, state := st, networkCall := false } ∧
    (health_check st true now forcedNet).networkCall = true := by
  constructor
  · simp [health_check, cachedFresh, hset, ht, hfresh]
  · cases forcedNet <;> simp [health_check]

/-- Witness for `C4_health_cache`: `_last_health_check = 1`, `now = 2`. -/
theorem C4_health_cache_witness :
    health_check ⟨some 1, true⟩ false 2 HTTPResult.connError =
      { result := true, state := ⟨some 1, true⟩, networkCall := false } ∧
    (health_check ⟨some 1, true⟩ true 2 HTTPResult.connError).networkCall = true :=
  C4_health_cache ⟨some 1, true⟩ 1 2 HTTPResult.connError HTTPResult.connError
    rfl (by decide) (by decide)

/-- C5: both completion executors first run `health_check` with its default
`force=False` (this is how `chat_completion` and `vision_completion` are
written, lines 146 and 224); when that check reports unhealthy they return
`None` at once with zero attempts against the chat endpoint, zero sleeps and
hence zero retries. -/
theorem C5_unhealthy_short_circuit (st : HealthState) (now : ℤ)
    (hnet : HTTPResult) (backend : Nat → HTTPResult) (maxRetries : Nat)
    (delay : ℤ)
    (h : (health_check st false now hnet).result = false) :
    chat_completion st now hnet backend maxRetries delay =
      { attempts := 0, waits := [], result := none } ∧
    vision_completion st now hnet backend =
      { attempts := 0, waits := [], result := none } := by
  constructor
  · simp [chat_completion, h]
  · simp [vision_completion, h]

/-- Witness for `C5_unhealthy_short_circuit`: a never-checked client whose
health probe hits a connection error, over a backend that would have
answered 200. -/
theorem C5_unhealthy_short_circuit_witness :
    chat_completion ⟨none, false⟩ 0 HTTPResult.connError
        (fun _ => HTTPResult.response 200 (some "x")) 3 1 =
      { attempts := 0, waits := [], result := none } ∧
    vision_completion ⟨none, false⟩ 0 HTTPResult.connError
        (fun _ => HTTPResult.response 200 (some "x")) =
      { attempts := 0, waits := [], result := none } :=
  C5_unhealthy_short_circuit ⟨none, false⟩ 0 HTTPResult.connError
    (fun _ => HTTPResult.response 200 (some "x")) 3 1 (by decide)

/-- C2 (amended): every chat payload carries the given model, the
temperature, `max_tokens`, `stream=false`, and a final `{role: user}`
message holding the prompt; the vision payload embeds the image as the
data-URL `data:image/jpeg;base64,<image>` inside a single multimodal user
message and carries the model and temperature, but sets neither
`max_tokens` nor `stream`. -/
theorem C2_payload_fields (model prompt : String) (systemPrompt : Option String)
    (temperature : ℚ) (maxTokens : Nat) (vmodel image vprompt : String)
    (vtemp : ℚ) :
    (chat_payload model prompt systemPrompt temperature maxTokens).model = model ∧
    (chat_payload model prompt systemPrompt temperature maxTokens).temperature
        = temperature ∧
    (chat_payload model prompt systemPrompt temperature maxTokens).max_tokens
        = some maxTokens ∧
    (chat_payload model prompt systemPrompt temperature maxTokens).stream
        = some false ∧
    (chat_payload model prompt systemPrompt temperature maxTokens).messages.getLast?
        = some ⟨"user", .text prompt⟩ ∧
    vision_payload vmodel image vprompt vtemp =
      { model := vmodel
        messages :=
          [⟨"user", .multimodal vprompt ("data:image/jpeg;base64," ++ image)⟩]
        temperature := vtemp
        max_tokens := none
        stream := none } := by
  refine ⟨rfl, rfl, rfl, rfl, ?_, rfl⟩
  unfold chat_payload
  cases systemPrompt with
  | none => rfl
  | some s => by_cases hs : s = "" <;> simp [hs]

/-- C2 as stated is false for the vision kind: the payload built by
`vision_completion` sets neither `max_tokens` nor `stream` (the source dict
literal at lines 229–246 has no such keys). -/
theorem C2_vision_payload_counterexample :
    (vision_payload "vm" "IMG" "look" 1).max_tokens = none ∧
    (vision_payload "vm" "IMG" "look" 1).stream = none :=
  ⟨rfl, rfl⟩

/-- C6: every run of `handle_vision_intent` first publishes
`VisionState{intent, active=true}` (the prior result is untouched by that
first update), and ends with `active=false` and `result` set on every
return path; when the camera read fails the returned dictionary is the
camera error and the final state carries the capture-failure text. -/
theorem C6_vision_state_lifecycle (st0 : VisionState) (intent prompt : String)
    (camera : Option String) (healthOk : Bool)
    (visionOut : Sum (Option String) String) :
    (handle_vision_intent st0 intent prompt camera healthOk visionOut).first =
      ⟨some intent, true, st0.result⟩ ∧
    (handle_vision_intent st0 intent prompt camera healthOk visionOut).final.active
        = false ∧
    ((handle_vision_intent st0 intent prompt camera healthOk
        visionOut).final.result).isSome = true ∧
    (truthyStr camera = false →
      (handle_vision_intent st0 intent prompt camera healthOk visionOut).resp =
        VisionResponse.failed "camera_failed" "Unable to access camera" ∧
      (handle_vision_intent st0 intent prompt camera healthOk visionOut).final =
        ⟨some intent, false, some "Camera capture failed"⟩) := by
  unfold handle_vision_intent update_vision_state
  by_cases hcam : truthyStr camera = true
  · simp only [hcam, if_true]
    cases healthOk with
    | false => simp
    | true =>
        cases visionOut with
        | inl r => by_cases hr : truthyStr r = true <;> simp [hr]
        | inr e => simp
  · have hcam' : truthyStr camera = false := by
      cases h : truthyStr camera
      · rfl
      · exact absurd h hcam
    simp [hcam']

/-- Witness for `C6_vision_state_lifecycle`: a failing camera
(`_capture_frame` returned `None`). -/
theorem C6_vision_state_lifecycle_witness :
    (handle_vision_intent ⟨none, false, none⟩ "see" "" none false
        (Sum.inl none)).first = ⟨some "see", true, none⟩ ∧
    (handle_vision_intent ⟨none, false, none⟩ "see" "" none false
        (Sum.inl none)).final.active = false ∧
    ((handle_vision_intent ⟨none, false, none⟩ "see" "" none false
        (Sum.inl none)).final.result).isSome = true ∧
    (handle_vision_intent ⟨none, false, none⟩ "see" "" none false
        (Sum.inl none)).resp =
      VisionResponse.failed "camera_failed" "Unable to access camera" ∧
    (handle_vision_intent ⟨none, false, none⟩ "see" "" none false
        (Sum.inl none)).final = ⟨some "see", false, some "Camera capture failed"⟩ :=
  ⟨(C6_vision_state_lifecycle ⟨none, false, none⟩ "see" "" none false
      (Sum.inl none)).1,
   (C6_vision_state_lifecycle ⟨none, false, none⟩ "see" "" none false
      (Sum.inl none)).2.1,
   (C6_vision_state_lifecycle ⟨none, false, none⟩ "see" "" none false
      (Sum.inl none)).2.2.1,
   ((C6_vision_state_lifecycle ⟨none, false, none⟩ "see" "" none false
      (Sum.inl none)).2.2.2 rfl).1,
   ((C6_vision_state_lifecycle ⟨none, false, none⟩ "see" "" none false
      (Sum.inl none)).2.2.2 rfl).2⟩

/-- C7: when the extracted prompt matches no intent and the health check
reports unhealthy, the route answers 200 with the fixed apology text and
never invokes `chat_completion` — so no network call against the chat
endpoint happens for this request. -/
theorem C7_unhealthy_apology (b : RequestBody) (manifestUser : String)
    (matchIntent : String → Option String) (llmOut : Option String)
    (visionResp : VisionResponse) (execOut : String) (prompt : String)
    (hp : extractPrompt b = some prompt) (hm : matchIntent prompt = none) :
    (chat_completions b manifestUser matchIntent false llmOut visionResp
        execOut).responseText = some apologyText ∧
    (chat_completions b manifestUser matchIntent false llmOut visionResp
        execOut).chatCalled = false ∧
    (chat_completions b manifestUser matchIntent false llmOut visionResp
        execOut).status = 200 := by
  simp [chat_completions, hp, hm]

/-- Witness for `C7_unhealthy_apology`: body `{prompt: "hi"}`, a classifier
matching nothing, unhealthy monitor. -/
theorem C7_unhealthy_apology_witness :
    (chat_completions ⟨some "hi", none, [], none⟩ "u" (fun _ => none) false
        none (VisionResponse.failed "x" "y") "cmd").responseText
      = some apologyText ∧
    (chat_completions ⟨some "hi", none, [], none⟩ "u" (fun _ => none) false
        none (VisionResponse.failed "x" "y") "cmd").chatCalled = false ∧
    (chat_completions ⟨some "hi", none, [], none⟩ "u" (fun _ => none) false
        none (VisionResponse.failed "x" "y") "cmd").status = 200 :=
  C7_unhealthy_apology ⟨some "hi", none, [], none⟩ "u" (fun _ => none) none
    (VisionResponse.failed "x" "y") "cmd" "hi" (by decide) rfl

/-- Unconditionally, `save_context` equals "append, then keep the last 100":
when the grown list is within bound the drop count is zero. -/
theorem save_context_eq_drop (hist : List ConversationEntry)
    (e : ConversationEntry) :
    save_context hist e = (hist ++ [e]).drop ((hist ++ [e]).length - 100) := by
  simp only [save_context]
  by_cases hg : (hist ++ [e]).length > 100
  · rw [if_pos hg]
  · rw [if_neg hg]
    have h0 : (hist ++ [e]).length - 100 = 0 := by omega
    rw [h0, List.drop_zero]

/-- Appending via `save_context` keeps the retained list within the 100-entry bound. -/
theorem save_context_length (hist : List ConversationEntry)
    (e : ConversationEntry) :
    (save_context hist e).length ≤ 100 := by
  unfold save_context
  by_cases hg : (hist ++ [e]).length > 100
  · simp only [hg, if_true, List.length_drop]
    omega
  · simp only [hg, if_false]
    omega

/-- Folding appends over the sink from any within-bound history retains
exactly the last 100 of the full append sequence. -/
theorem save_context_foldl (es : List ConversationEntry) :
    ∀ hist : List ConversationEntry, hist.length ≤ 100 →
      List.foldl save_context hist es =
        (hist ++ es).drop ((hist ++ es).length - 100) := by
  induction es with
  | nil =>
      intro hist h
      rw [List.foldl_nil, List.append_nil]
      have h0 : hist.length - 100 = 0 := by omega
      rw [h0, List.drop_zero]
  | cons e es ih =>
      intro hist h
      rw [List.foldl_cons, ih (save_context hist e) (save_context_length hist e),
        save_context_eq_drop hist e]
      have hk : (hist ++ [e]).length - 100 ≤ (hist ++ [e]).length := by omega
      rw [← List.drop_append_of_le_length hk, List.drop_drop]
      have harr : (hist ++ [e]) ++ es = hist ++ e :: es := by
        rw [List.append_assoc]
        rfl
      rw [harr]
      have hlen :
          (hist ++ [e]).length - 100 +
              (((hist ++ e :: es).drop
                  ((hist ++ [e]).length - 100)).length - 100) =
            (hist ++ e :: es).length - 100 := by
        have e1 : (hist ++ [e]).length = hist.length + 1 := by simp
        have e2 : (hist ++ e :: es).length = hist.length + (es.length + 1) := by
          simp
        rw [List.length_drop, e1, e2]
        omega
      rw [hlen]

/-- C8: appending N entries to an initially empty history sink retains
exactly the most recent `min N 100` entries, oldest first — the suffix
`drop (N - 100)` of the append sequence — so the retained list never
exceeds 100 entries, and appending 150 leaves precisely the last 100 in
order. -/
theorem C8_history_bound (entries : List ConversationEntry) :
    List.foldl save_context [] entries =
      entries.drop (entries.length - 100) ∧
    (List.foldl save_context [] entries).length = min entries.length 100 := by
  have h := save_context_foldl entries [] (by simp)
  simp only [List.nil_append] at h
  refine ⟨h, ?_⟩
  rw [h]
  simp only [List.length_drop]
  omega

/-- C9 as stated is false: under the interleaving in which caller one runs
`cv2.VideoCapture(0)` and caller two then runs `cv2.VideoCapture(0)` before
caller one releases, both callers hold the camera device simultaneously —
the source has no mutex or semaphore to prevent it. -/
theorem C9_exclusivity_counterexample : overlapPossible [false, true] = true := by
  decide

/-- C9 (amended): `_capture_frame` performs open → warm-up → read → release
with no synchronisation, so camera exclusivity is not enforced: some
interleaving of two concurrent calls has both holding the device at once
(and the second caller observes neither a wait nor a CameraBusy error,
which the code nowhere produces), while a fully serial schedule never
overlaps. -/
theorem C9_unsynchronised_overlap :
    (∃ sched, overlapPossible sched = true) ∧
    overlapPossible [false, false, false, false, true, true, true, true]
      = false :=
  ⟨⟨[false, true], by decide⟩, by decide⟩

/-- C10: a body with no truthy `prompt` field, no truthy `input` field and
no last `messages` entry carrying non-empty content makes the route answer
400 `No input provided` before intent classification, before any handler
dispatch, and before any history append. -/
theorem C10_no_input_400 (b : RequestBody) (manifestUser : String)
    (matchIntent : String → Option String) (healthOk : Bool)
    (llmOut : Option String) (visionResp : VisionResponse) (execOut : String)
    (hp : truthyStr b.prompt? = false) (hi : truthyStr b.input? = false)
    (hm : ∀ m, b.messages.getLast? = some m → m.getD "" = "") :
    chat_completions b manifestUser matchIntent healthOk llmOut visionResp
        execOut =
      { status := 400
        responseText := none
        errorText := some "No input provided"
        matchCalled := false
        chatCalled := false
        visionCalled := false
        execCalled := false
        saved := [] } := by
  have hext : extractPrompt b = none := by
    unfold extractPrompt pyOrStr
    cases hL : b.messages.getLast? with
    | none => simp [hp, hi, hL]
    | some m =>
        have hc : m.getD "" = "" := hm m hL
        have hempty : truthyStr (some "") = false := rfl
        simp [hp, hi, hL, hc, hempty]
  simp [chat_completions, hext]

/-- Witness for `C10_no_input_400`: the empty body `{}`. -/
theorem C10_no_input_400_witness :
    chat_completions ⟨none, none, [], none⟩ "u" (fun _ => none) true none
        (VisionResponse.failed "x" "y") "cmd" =
      { status := 400
        responseText := none
        errorText := some "No input provided"
        matchCalled := false
        chatCalled := false
        visionCalled := false
        execCalled := false
        saved := [] } :=
  C10_no_input_400 ⟨none, none, [], none⟩ "u" (fun _ => none) true none
    (VisionResponse.failed "x" "y") "cmd" rfl rfl
    (by intro m h; simp at h)
